import Mathlib

/-!
Shallow embedding of the vibe-assistant backend (Flask app in
src/backend/app.py, AWS adapter in src/backend/services/bedrock_service.py)
and proofs about the prompt-composition, enhancement-fallback and
user-configuration endpoints.

External effects (environment variables, the local filesystem, the hosted
model endpoint, the boto3 client constructor) are modelled as explicit
parameters: an environment record, a map from paths to file data, and
`Option String` outcomes for remote calls (`none` = the call raised).
-/

namespace VibeAssistant

/-- Python truthiness of an optional string (as used in
`not creds[...]`, `if github_token`, ...): `None` and `""` are falsy. -/
def truthy : Option String → Bool
  | none => false
  | some s => !s.isEmpty

/-- Python whitespace, as stripped by `str.strip()`. -/
def isPySpace (c : Char) : Bool :=
  c = ' ' || c = '\t' || c = '\n' || c = '\r' || c = '\x0b' || c = '\x0c'

/-- Python `str.strip()`: remove leading and trailing whitespace. -/
def pyStrip (s : String) : String :=
  String.mk (((s.data.dropWhile isPySpace).reverse.dropWhile isPySpace).reverse)

/-! ## JSON values (the image of Python's `json.loads`) -/

/-- A JSON value as produced by `json.loads`.  Finite numbers keep their
source lexeme and the non-finite constants their Python `str()` form:
no claim depends on numeric value, only on the shape of the data. -/
inductive JVal where
  | null : JVal
  | bool (b : Bool) : JVal
  | num (raw : String) : JVal
  | str (s : String) : JVal
  | arr (xs : List JVal) : JVal
  | obj (kvs : List (String × JVal)) : JVal

/-- Key lookup in a JSON object (Python `dict.get`); `none` when the value
is not an object or the key is absent. -/
def JVal.get : JVal → String → Option JVal
  | .obj kvs, k => (kvs.find? (fun kv => kv.1 == k)).map (·.2)
  | _, _ => none

/-- The keys of a JSON object, in order; `[]` when not an object. -/
def JVal.keys : JVal → List String
  | .obj kvs => kvs.map (·.1)
  | _ => []

/-! ### An executable JSON parser, modelling `json.loads` with its default
options.

Fuel-based recursive descent following Python's scanner: strings accept
exactly the escapes `\" \\ \/ \b \f \n \r \t \uXXXX` and reject unescaped
control characters; numbers follow the scanner's regular expression
`-? (0 | [1-9][0-9]*) (\.[0-9]+)? ([eE][+-]?[0-9]+)?` (no leading zeros);
the constants `NaN`, `Infinity` and `-Infinity` are accepted, stored under
their Python `str()` forms `nan`, `inf`, `-inf`; duplicate object keys
keep the last value at the first key's position, as a Python dict does.
Approximations that never affect the parse-failure/array classification:
finite numbers keep their lexeme instead of a float value, and a `\uXXXX`
escape denoting a surrogate half decodes to a placeholder character. -/

/-- Skip JSON whitespace. -/
def skipWs : List Char → List Char
  | [] => []
  | c :: cs =>
    if c = ' ' ∨ c = '\t' ∨ c = '\n' ∨ c = '\r' then skipWs cs else c :: cs

/-- Whether a character is a hexadecimal digit. -/
def isHexDigitChar (c : Char) : Bool :=
  c.isDigit || ('a' ≤ c && c ≤ 'f') || ('A' ≤ c && c ≤ 'F')

/-- The numeric value of a hexadecimal digit. -/
def hexVal (c : Char) : Nat :=
  if c.isDigit then c.toNat - 48
  else if 'a' ≤ c ∧ c ≤ 'f' then c.toNat - 87
  else if 'A' ≤ c ∧ c ≤ 'F' then c.toNat - 55
  else 0

/-- Parse the remainder of a JSON string literal (after the opening
quote), returning the decoded text and the input following the closing
quote.  Strict mode: only the JSON escapes are accepted, `\uXXXX` needs
four hex digits, and unescaped control characters are rejected. -/
def parseStringChars : Nat → List Char → Option (String × List Char)
  | 0, _ => none
  | _ + 1, [] => none
  | fuel + 1, c :: cs =>
    if c = '"' then some ("", cs)
    else if c = '\\' then
      match cs with
      | 'u' :: h1 :: h2 :: h3 :: h4 :: cs2 =>
        if isHexDigitChar h1 && isHexDigitChar h2 &&
            isHexDigitChar h3 && isHexDigitChar h4 then
          match parseStringChars fuel cs2 with
          | some (s, rest) =>
            some (String.mk (Char.ofNat
              (hexVal h1 * 4096 + hexVal h2 * 256 + hexVal h3 * 16 + hexVal h4)
              :: s.data), rest)
          | none => none
        else none
      | e :: cs2 =>
        if e = '"' ∨ e = '\\' ∨ e = '/' ∨ e = 'b' ∨ e = 'f' ∨ e = 'n' ∨
            e = 'r' ∨ e = 't' then
          let d := if e = 'n' then '\n'
                   else if e = 't' then '\t'
                   else if e = 'r' then '\r'
                   else if e = 'b' then '\x08'
                   else if e = 'f' then '\x0c' else e
          match parseStringChars fuel cs2 with
          | some (s, rest) => some (String.mk (d :: s.data), rest)
          | none => none
        else none
      | [] => none
    else if c.toNat < 32 then none
    else
      match parseStringChars fuel cs with
      | some (s, rest) => some (String.mk (c :: s.data), rest)
      | none => none

/-- The optional fraction group of a JSON number; as with the scanner's
regular expression, a group that does not match consumes nothing. -/
def numFrac (cs : List Char) : List Char × List Char :=
  match cs with
  | '.' :: r =>
    let ds := r.takeWhile Char.isDigit
    if ds.isEmpty then ([], cs) else ('.' :: ds, r.drop ds.length)
  | _ => ([], cs)

/-- The optional exponent group of a JSON number. -/
def numExp (cs : List Char) : List Char × List Char :=
  match cs with
  | e :: r =>
    if e = 'e' ∨ e = 'E' then
      let (sgn, r2) : List Char × List Char :=
        match r with
        | c :: rr => if c = '+' ∨ c = '-' then ([c], rr) else ([], r)
        | [] => ([], r)
      let ds := r2.takeWhile Char.isDigit
      if ds.isEmpty then ([], cs) else (e :: (sgn ++ ds), r2.drop ds.length)
    else ([], cs)
  | [] => ([], cs)

/-- The fraction and exponent tail of a JSON number. -/
def numTail (cs : List Char) : List Char × List Char :=
  let (f, cs1) := numFrac cs
  let (ex, cs2) := numExp cs1
  (f ++ ex, cs2)

/-- Parse a JSON number lexeme following the scanner's regular
expression: optional minus, an integer part without leading zeros, then
optional fraction and exponent. -/
def parseNumber (cs : List Char) : Option (String × List Char) :=
  let (sign, cs1) : List Char × List Char :=
    match cs with
    | '-' :: rest => (['-'], rest)
    | _ => ([], cs)
  match cs1 with
  | [] => none
  | d :: rest =>
    if d = '0' then
      let (tail, cs2) := numTail rest
      some (String.mk (sign ++ d :: tail), cs2)
    else if d.isDigit then
      let more := rest.takeWhile Char.isDigit
      let (tail, cs2) := numTail (rest.drop more.length)
      some (String.mk (sign ++ d :: (more ++ tail)), cs2)
    else none

/-- Insertion into a parsed object: a repeated key overwrites the stored
value in place, as assignment into a Python dict does. -/
def objInsert (acc : List (String × JVal)) (k : String) (v : JVal) :
    List (String × JVal) :=
  if acc.any (fun kv => kv.1 == k) then
    acc.map (fun kv => if kv.1 == k then (k, v) else kv)
  else acc ++ [(k, v)]

mutual

/-- Parse one JSON value. -/
def parseValue : Nat → List Char → Option (JVal × List Char)
  | 0, _ => none
  | fuel + 1, cs =>
    match skipWs cs with
    | 't' :: 'r' :: 'u' :: 'e' :: r => some (.bool true, r)
    | 'f' :: 'a' :: 'l' :: 's' :: 'e' :: r => some (.bool false, r)
    | 'n' :: 'u' :: 'l' :: 'l' :: r => some (.null, r)
    | 'N' :: 'a' :: 'N' :: r => some (.num "nan", r)
    | 'I' :: 'n' :: 'f' :: 'i' :: 'n' :: 'i' :: 't' :: 'y' :: r =>
      some (.num "inf", r)
    | '-' :: 'I' :: 'n' :: 'f' :: 'i' :: 'n' :: 'i' :: 't' :: 'y' :: r =>
      some (.num "-inf", r)
    | '"' :: r =>
      match parseStringChars (fuel + 1) r with
      | some (s, rest) => some (.str s, rest)
      | none => none
    | '[' :: r =>
      match skipWs r with
      | ']' :: r2 => some (.arr [], r2)
      | r2 => parseArrLoop fuel r2 []
    | '\x7b' :: r =>
      match skipWs r with
      | '\x7d' :: r2 => some (.obj [], r2)
      | r2 => parseObjLoop fuel r2 []
    | cs2 =>
      match parseNumber cs2 with
      | some (lex, rest) => some (.num lex, rest)
      | none => none

/-- Parse the elements of a non-empty JSON array body. -/
def parseArrLoop : Nat → List Char → List JVal → Option (JVal × List Char)
  | 0, _, _ => none
  | fuel + 1, cs, acc =>
    match parseValue fuel cs with
    | none => none
    | some (v, rest) =>
      match skipWs rest with
      | ',' :: r2 => parseArrLoop fuel r2 (acc ++ [v])
      | ']' :: r2 => some (.arr (acc ++ [v]), r2)
      | _ => none

/-- Parse the members of a non-empty JSON object body. -/
def parseObjLoop : Nat → List Char → List (String × JVal) →
    Option (JVal × List Char)
  | 0, _, _ => none
  | fuel + 1, cs, acc =>
    match skipWs cs with
    | '"' :: r =>
      match parseStringChars (fuel + 1) r with
      | none => none
      | some (k, rest) =>
        match skipWs rest with
        | ':' :: r2 =>
          match parseValue fuel r2 with
          | none => none
          | some (v, rest2) =>
            match skipWs rest2 with
            | ',' :: r3 => parseObjLoop fuel r3 (objInsert acc k v)
            | '\x7d' :: r3 => some (.obj (objInsert acc k v), r3)
            | _ => none
        | _ => none
    | _ => none

end

/-- `json.loads`: parse a whole string as a single JSON document,
`none` when the Python call would raise. -/
def json_loads (s : String) : Option JVal :=
  match parseValue (4 * s.length + 16) s.data with
  | some (v, rest) => if (skipWs rest).isEmpty then some v else none
  | none => none

/-! ## Python rendering of decoded JSON values

`str()` as applied by f-string interpolation (`f"- {req}"`) to values
decoded from JSON. -/

mutual

/-- Python `repr` of a decoded JSON value (approximate for floats). -/
def pyRepr : JVal → String
  | .null => "None"
  | .bool true => "True"
  | .bool false => "False"
  | .num raw => raw
  | .str s => "'" ++ s ++ "'"
  | .arr xs => "[" ++ String.intercalate ", " (pyReprList xs) ++ "]"
  | .obj kvs =>
    "\x7b" ++ String.intercalate ", " (pyReprMembers kvs) ++ "\x7d"

/-- `repr` of each element of a decoded JSON list. -/
def pyReprList : List JVal → List String
  | [] => []
  | v :: vs => pyRepr v :: pyReprList vs

/-- `repr` of each member of a decoded JSON object. -/
def pyReprMembers : List (String × JVal) → List String
  | [] => []
  | (k, v) :: kvs => ("'" ++ k ++ "': " ++ pyRepr v) :: pyReprMembers kvs

end

/-- Python `str` of a decoded JSON value. -/
def pyStr : JVal → String
  | .str s => s
  | v => pyRepr v

/-! ## The non-functional-requirements map

`config.get('non_functional_requirements', {}).get(task_type, [])`:
the stored map from task type to an ordered list of requirement strings,
with absent task types defaulting to the empty list. -/

/-- Lookup of the requirement list stored for a task type;
an unknown task type yields `[]`, never an error. -/
def lookupNfr (nfr : List (String × List String)) (task_type : String) :
    List String :=
  match nfr.find? (fun kv => kv.1 == task_type) with
  | some kv => kv.2
  | none => []

/-! ## The local filesystem, as seen by `build_prompt`

`os.path.exists`, `os.path.getsize` and `open(...).read()` are modelled by
one map from paths to file data; `content = none` models a file that
exists but whose `open`/`read` raises (the per-entry `except` swallows it). -/

/-- Data of one local file: its byte size and, when readable, its text
as decoded with `errors='ignore'`. -/
structure FsFile where
  size : Nat
  content : Option String

/-- The filesystem: `none` at a path means `os.path.exists` is false. -/
def FileSys := String → Option FsFile

/-- One element of the `selected_files` request list.  `dict path` is a
Python dict whose `'path'` key holds `path` (absent key: `.get` returns
`''`); `other` is any entry whose per-entry processing raises (a non-dict
entry, a non-string path, ...) — the `except Exception: continue` in the
source absorbs it. -/
inductive SelEntry where
  | dict (path : Option String) : SelEntry
  | other : SelEntry

/-- The per-entry body of the `for file_info in selected_files` loop in
`build_prompt` (src/backend/app.py lines 316-326): `some block` when the
entry appends a labeled block to `context_parts`, `none` when the entry is
skipped (missing file, oversized file, read error, raising entry). -/
def processEntry (fs : FileSys) (max_file_size : Nat) :
    SelEntry → Option String
  | .other => none
  | .dict p =>
    let file_path := p.getD ""
    match fs file_path with
    | none => none
    | some f =>
      if f.size ≤ max_file_size then
        match f.content with
        | some content => some ("File: " ++ file_path ++ "\n" ++ content ++ "\n")
        | none => none
      else none

/-! ## POST /api/prompt/build (`build_prompt`, src/backend/app.py 290-369) -/

/-- A parsed /api/prompt/build request body, after the `data.get` defaults
have been applied. -/
structure BuildRequest where
  prompt : String
  task_type : String
  selected_files : List SelEntry
  include_context : Bool
  include_requirements : Bool

/-- The JSON body answered by /api/prompt/build. -/
structure BuildResponse where
  success : Bool
  final_prompt : String
  context_included : Bool
  requirements_included : Bool
  files_processed : Nat
  requirements_applied : Nat

/-- `MAX_FILE_SIZE_KB` handling: `int(os.environ.get('MAX_FILE_SIZE_KB',
'100')) * 1024`. -/
def max_file_size (envKb : Option Nat) : Nat := envKb.getD 100 * 1024

/-- The fixed `task_contexts` persona map of `build_prompt`, as a lookup. -/
def task_contexts (task_type : String) : Option String :=
  if task_type = "development" then
    some "You are a senior software developer. Focus on writing clean, maintainable, and efficient code."
  else if task_type = "refactoring" then
    some "You are a code refactoring expert. Focus on improving code structure, readability, and performance."
  else if task_type = "testing" then
    some "You are a testing specialist. Focus on comprehensive test coverage and quality assurance."
  else if task_type = "documentation" then
    some "You are a technical writer. Focus on clear, comprehensive documentation."
  else if task_type = "review" then
    some "You are a code reviewer. Focus on identifying issues, improvements, and best practices."
  else none

/-- `requirements_list`: loaded from the stored config only when
`include_requirements` is set. -/
def requirementsListOf (nfr : List (String × List String))
    (req : BuildRequest) : List String :=
  if req.include_requirements then lookupNfr nfr req.task_type else []

/-- `context_text`: the per-file blocks accumulated by the loop, joined
with newlines; empty unless context is requested and files were selected. -/
def contextTextOf (fs : FileSys) (envKb : Option Nat)
    (req : BuildRequest) : String :=
  if req.include_context && !req.selected_files.isEmpty then
    String.intercalate "\n"
      (req.selected_files.filterMap (processEntry fs (max_file_size envKb)))
  else ""

/-- The persona section: present exactly for the five recognized types. -/
def personaSection (task_type : String) : List String :=
  match task_contexts task_type with
  | some persona => [persona]
  | none => []

/-- The requirements section (`if requirements_list:` in the source). -/
def requirementsSection (task_type : String) (requirements_list : List String) :
    List String :=
  if !requirements_list.isEmpty then
    ["Non-functional requirements for " ++ task_type ++ ":\n" ++
      String.intercalate "\n" (requirements_list.map (fun req => "- " ++ req))]
  else []

/-- The file-context section (`if context_text:` in the source). -/
def contextSection (context_text : String) : List String :=
  if !context_text.isEmpty then
    ["Context from selected files:\n" ++ context_text]
  else []

/-- `final_prompt_parts`, in the append order of the source. -/
def promptParts (nfr : List (String × List String)) (fs : FileSys)
    (envKb : Option Nat) (req : BuildRequest) : List String :=
  personaSection req.task_type ++
  ["Task: " ++ req.prompt] ++
  requirementsSection req.task_type (requirementsListOf nfr req) ++
  contextSection (contextTextOf fs envKb req)

/-- The /api/prompt/build handler (src/backend/app.py lines 290-369). -/
def build_prompt (nfr : List (String × List String)) (fs : FileSys)
    (envKb : Option Nat) (req : BuildRequest) : BuildResponse :=
  let requirements_list := requirementsListOf nfr req
  let context_text := contextTextOf fs envKb req
  { success := true
    final_prompt := String.intercalate "\n\n" (promptParts nfr fs envKb req)
    context_included := req.include_context && !context_text.isEmpty
    requirements_included := req.include_requirements && !requirements_list.isEmpty
    files_processed := if req.include_context then req.selected_files.length else 0
    requirements_applied := requirements_list.length }

/-! ## BedrockService (src/backend/services/bedrock_service.py)

The process environment and the boto3 client constructor are external;
they enter as a `BedrockEnv` record.  `clientOk` is the outcome of the
`boto3.client(...)` constructor call (which is outside this repository):
`false` means that call raised. -/

/-- The environment variables consulted by `BedrockService`, plus the
outcome of the external boto3 client constructor. -/
structure BedrockEnv where
  aws_access_key_id : Option String
  aws_secret_access_key : Option String
  aws_default_region : Option String
  aws_bedrock_model_id : Option String
  clientOk : Bool

/-- The model id hardcoded in `BedrockService.__init__`. -/
def default_model_id : String := "anthropic.claude-3-5-sonnet-20240620-v1:0"

/-- The record returned by `BedrockService._load_user_config` (which, per
its body, reads environment variables only). -/
structure AwsCreds where
  access_key_id : Option String
  secret_access_key : Option String
  region : String
  model_id : String

/-- `BedrockService._load_user_config` (bedrock_service.py lines 23-30). -/
def load_user_config (env : BedrockEnv) : AwsCreds :=
  { access_key_id := env.aws_access_key_id
    secret_access_key := env.aws_secret_access_key
    region := env.aws_default_region.getD "us-east-1"
    model_id := env.aws_bedrock_model_id.getD default_model_id }

/-- The client state held by a successfully constructed `BedrockService`. -/
structure BedrockClientState where
  region : String
  model_id : String

/-- `BedrockService._initialize_client` (bedrock_service.py lines 32-55):
raises (`error`) when either credential is falsy or when the boto3
constructor raises; otherwise records region and model id. -/
def initialize_client (env : BedrockEnv) : Except String BedrockClientState :=
  let creds := load_user_config env
  if !truthy creds.access_key_id || !truthy creds.secret_access_key then
    .error "Failed to initialize AWS Bedrock: AWS credentials not found in environment variables"
  else if !env.clientOk then
    .error "Failed to initialize AWS Bedrock: boto3 client construction failed"
  else
    .ok { region := creds.region
          model_id :=
            if !creds.model_id.isEmpty then creds.model_id else default_model_id }

/-- Whether `BedrockService()` construction succeeds. -/
def bedrockInitOk (env : BedrockEnv) : Bool :=
  (initialize_client env).toBool

/-- `BedrockService.enhance_prompt` (bedrock_service.py lines 198-253).
`invoke_claude_result` is the outcome of the inner `invoke_claude` call
(`none` = that call raised).  The method catches the exception itself and
returns the original prompt. -/
def BedrockService.enhance_prompt (invoke_claude_result : Option String)
    (user_prompt _task_type : String) : String :=
  match invoke_claude_result with
  | some enhanced => pyStrip enhanced
  | none => user_prompt

/-- `BedrockService.extract_relevant_requirements` (bedrock_service.py
lines 355-397).  `invoke_claude_result` is the outcome of the inner
`invoke_claude` call (`none` = that call raised).  When the model text
parses to a JSON array, the source returns the parsed Python list, whose
elements are rendered via f-string later; `pyStr` applies that rendering
here.  All other cases fall back to `all_requirements`. -/
def BedrockService.extract_relevant_requirements
    (invoke_claude_result : Option String) (_prompt : String)
    (all_requirements : List String) (_task_type : String) : List String :=
  match invoke_claude_result with
  | none => all_requirements
  | some result =>
    match json_loads (pyStrip result) with
    | some (.arr relevant_requirements) => relevant_requirements.map pyStr
    | some _ => all_requirements
    | none => all_requirements

/-! ## POST /api/prompt/enhance (`enhance_prompt` route, app.py 371-463) -/

/-- The outcomes of the two `invoke_claude` calls the route can trigger
(`none` = the call raised inside the service method). -/
structure AiOutcomes where
  enhance_call : Option String
  extract_call : Option String

/-- The JSON body answered by /api/prompt/enhance.  `fallback_used = none`
models the key being absent (the primary response does not set it). -/
structure EnhanceResponse where
  success : Bool
  enhanced_prompt : String
  original_prompt : String
  task_type : String
  requirements_applied : Nat
  ai_enhanced : Bool
  fallback_used : Option Bool

/-- The `task_guidance` map of the route's fallback branch (app.py
lines 421-440): guidance bullets for three hardcoded task types only. -/
def task_guidance (task_type : String) : Option (List String) :=
  if task_type = "development" then
    some ["Consider error handling and edge cases",
          "Follow coding best practices and design patterns",
          "Include appropriate comments and documentation",
          "Consider performance and scalability"]
  else if task_type = "refactoring" then
    some ["Identify code smells and anti-patterns",
          "Improve code organization and modularity",
          "Enhance readability and maintainability",
          "Optimize performance where possible"]
  else if task_type = "testing" then
    some ["Create comprehensive test cases including edge cases",
          "Follow testing best practices (AAA pattern, etc.)",
          "Include both unit and integration tests",
          "Consider test coverage and quality metrics"]
  else none

/-- The requirements block appended to the enhanced prompt, shared by the
primary and fallback branches of the route. -/
def nfrBlock (task_type : String) (reqs : List String) : String :=
  "\n\nNon-functional requirements for " ++ task_type ++ ":\n" ++
  String.intercalate "\n" (reqs.map (fun req => "- " ++ req))

/-- The route's primary (AI) branch: the body of the inner `try` after a
successful `BedrockService()` construction (app.py lines 385-412). -/
def primaryEnhanceResponse (ai : AiOutcomes) (prompt task_type : String)
    (requirements : List String) (selected_files : List SelEntry) :
    EnhanceResponse :=
  let enhanced0 := BedrockService.enhance_prompt ai.enhance_call prompt task_type
  let relevant_requirements :=
    if !requirements.isEmpty then
      BedrockService.extract_relevant_requirements ai.extract_call prompt
        requirements task_type
    else []
  let enhanced1 :=
    if !requirements.isEmpty && !relevant_requirements.isEmpty then
      enhanced0 ++ nfrBlock task_type relevant_requirements
    else enhanced0
  let enhanced2 :=
    if !selected_files.isEmpty then
      enhanced1 ++ "\n\nContext: This request relates to " ++
        toString selected_files.length ++
        " selected file(s). Please consider the file structure and content when providing your response."
    else enhanced1
  { success := true
    enhanced_prompt := enhanced2
    original_prompt := prompt
    task_type := task_type
    requirements_applied := relevant_requirements.length
    ai_enhanced := true
    fallback_used := none }

/-- The enhanced-prompt text built by the route's fallback branch
(app.py lines 417-449). -/
def fallbackEnhancedPrompt (prompt task_type : String)
    (requirements : List String) : String :=
  let enhanced1 :=
    match task_guidance task_type with
    | some guidance_list =>
      prompt ++ "\n\nAdditional considerations:\n" ++
        String.intercalate "\n"
          (guidance_list.map (fun guidance => "- " ++ guidance))
    | none => prompt
  if !requirements.isEmpty then
    enhanced1 ++ nfrBlock task_type (requirements.take 5)
  else enhanced1

/-- The route's fallback branch (app.py lines 414-459), entered when the
inner `try` raised. -/
def fallbackEnhanceResponse (prompt task_type : String)
    (requirements : List String) : EnhanceResponse :=
  { success := true
    enhanced_prompt := fallbackEnhancedPrompt prompt task_type requirements
    original_prompt := prompt
    task_type := task_type
    requirements_applied :=
      if !requirements.isEmpty then min requirements.length 5 else 0
    ai_enhanced := false
    fallback_used := some true }

/-- The /api/prompt/enhance handler (app.py lines 371-463).  The only
statement of the inner `try` that can raise is the `BedrockService()`
construction: both service methods catch their own exceptions and return
degraded values. -/
def enhance_route (nfr : List (String × List String)) (bedrock : BedrockEnv)
    (ai : AiOutcomes) (prompt task_type : String)
    (selected_files : List SelEntry) : EnhanceResponse :=
  let requirements := lookupNfr nfr task_type
  match initialize_client bedrock with
  | .ok _ => primaryEnhanceResponse ai prompt task_type requirements selected_files
  | .error _ => fallbackEnhanceResponse prompt task_type requirements

/-! ## GET and POST /api/user/config (app.py lines 466-508)

The config file at `config/user_config.json` is modelled as
`Option JVal`: the parsed document when the file exists, `none` when it
does not.  `json.dump` followed by `json.load` is the identity on
documents arising from parsed JSON, so the store holds documents
directly. -/

/-- The environment variables consulted by the GET handler's default. -/
structure UserConfigEnv where
  aws_default_region : Option String
  default_task_type : Option String

/-- The hardcoded default document of `get_user_config`
(app.py lines 474-489), built when the config file is absent. -/
def default_user_config (env : UserConfigEnv) : JVal :=
  .obj
    [("aws", .obj
        [("access_key_id", .str ""),
         ("secret_access_key", .str ""),
         ("region", .str (env.aws_default_region.getD "us-east-1"))]),
     ("github", .obj
        [("token", .str ""),
         ("default_repo", .str "")]),
     ("preferences", .obj
        [("default_task_type", .str (env.default_task_type.getD "development")),
         ("include_context_by_default", .bool true),
         ("include_requirements_by_default", .bool true)])]

/-- The JSON body answered by GET /api/user/config. -/
structure UserConfigGetResponse where
  success : Bool
  config : JVal

/-- The GET /api/user/config handler (app.py lines 466-494). -/
def get_user_config (env : UserConfigEnv) (stored : Option JVal) :
    UserConfigGetResponse :=
  match stored with
  | some config => { success := true, config := config }
  | none => { success := true, config := default_user_config env }

/-- The JSON body answered by POST /api/user/config. -/
structure UserConfigPostResponse where
  success : Bool
  message : String

/-- The POST /api/user/config handler (app.py lines 496-508): overwrites
the whole stored document and returns the new store plus the response. -/
def update_user_config (data : JVal) (_stored : Option JVal) :
    Option JVal × UserConfigPostResponse :=
  (some data, { success := true, message := "Configuration updated successfully" })

/-! ## Derived predicates and concrete fixtures -/

/-- Whether a `selected_files` entry is a record whose `'path'` names an
existing, readable local file within the size cap — exactly the entries
whose content the `build_prompt` loop inlines. -/
def goodSelection (fs : FileSys) (cap : Nat) : SelEntry → Bool
  | .other => false
  | .dict p =>
    match fs (p.getD "") with
    | some f => decide (f.size ≤ cap) && f.content.isSome
    | none => false

/-- An empty local filesystem. -/
def fsEmpty : FileSys := fun _ => none

/-- A filesystem holding one 200000-byte file at `big.txt`. -/
def fsBig : FileSys := fun p =>
  if p = "big.txt" then some { size := 200000, content := some "x" } else none

/-- An environment with no AWS credentials set. -/
def envNoKeys : BedrockEnv :=
  { aws_access_key_id := none, aws_secret_access_key := none,
    aws_default_region := none, aws_bedrock_model_id := none, clientOk := true }

/-- An environment with both AWS keys set, no region and no model id;
the boto3 constructor succeeds. -/
def envCredsOnly : BedrockEnv :=
  { aws_access_key_id := some "AKIAEXAMPLE",
    aws_secret_access_key := some "examplesecretkey",
    aws_default_region := none, aws_bedrock_model_id := none, clientOk := true }

/-- A build request with an unrecognized task type. -/
def reqDebugging : BuildRequest :=
  { prompt := "p", task_type := "debugging", selected_files := [],
    include_context := true, include_requirements := true }

/-! # Theorems -/

/-- C1, counterexample: with valid credentials and a successfully
constructed client, a failure of the AI `enhance_prompt` call (and of the
`extract_relevant_requirements` call) does NOT make the enhance operation
fall back: the response still reports `ai_enhanced = true`, carries no
`fallback_used` key, and its text is the original prompt plus the
unfiltered requirement list. -/
theorem enhance_ai_call_failure_counterexample :
    (enhance_route [("development", ["r1"])] envCredsOnly
        { enhance_call := none, extract_call := none } "p" "development"
        []).ai_enhanced = true ∧
    (enhance_route [("development", ["r1"])] envCredsOnly
        { enhance_call := none, extract_call := none } "p" "development"
        []).fallback_used = none ∧
    (enhance_route [("development", ["r1"])] envCredsOnly
        { enhance_call := none, extract_call := none } "p" "development"
        []).enhanced_prompt =
      "p\n\nNon-functional requirements for development:\n- r1" :=
  ⟨rfl, rfl, rfl⟩

/-- C1, amended: the /api/prompt/enhance fallback (and `ai_enhanced =
false`) triggers exactly when `BedrockService()` construction fails;
failures inside the two AI adapter calls are absorbed by the adapter
methods themselves, and the response then still reports
`ai_enhanced = true` with no `fallback_used` key. -/
theorem enhance_ai_enhanced_tracks_init (nfr : List (String × List String))
    (bedrock : BedrockEnv) (ai : AiOutcomes) (prompt task_type : String)
    (selected_files : List SelEntry) :
    (enhance_route nfr bedrock ai prompt task_type selected_files).success = true ∧
    (enhance_route nfr bedrock ai prompt task_type selected_files).ai_enhanced =
      bedrockInitOk bedrock ∧
    (enhance_route nfr bedrock ai prompt task_type selected_files).fallback_used =
      (if bedrockInitOk bedrock then none else some true) := by
  unfold enhance_route bedrockInitOk
  cases initialize_client bedrock <;>
    simp [primaryEnhanceResponse, fallbackEnhanceResponse, Except.toBool]

/-- C2, counterexample: credentials that are present but invalid do not
fail `BedrockService()` construction — the boto3 constructor performs no
credential validation, so it succeeds (`clientOk = true`) and the request
takes the primary path.  The invalid credentials surface as failures of
the two `invoke_claude` calls, which the adapter absorbs; the response
then reports `ai_enhanced = true`, carries no `fallback_used` key, and
applies all 7 unfiltered stored requirements — more than 5. -/
theorem enhance_invalid_credentials_primary_path_counterexample :
    bedrockInitOk envCredsOnly = true ∧
    (enhance_route [("testing", ["r1", "r2", "r3", "r4", "r5", "r6", "r7"])]
        envCredsOnly { enhance_call := none, extract_call := none } "p" "testing"
        []).ai_enhanced = true ∧
    (enhance_route [("testing", ["r1", "r2", "r3", "r4", "r5", "r6", "r7"])]
        envCredsOnly { enhance_call := none, extract_call := none } "p" "testing"
        []).fallback_used = none ∧
    (enhance_route [("testing", ["r1", "r2", "r3", "r4", "r5", "r6", "r7"])]
        envCredsOnly { enhance_call := none, extract_call := none } "p" "testing"
        []).requirements_applied = 7 ∧
    ¬ (enhance_route [("testing", ["r1", "r2", "r3", "r4", "r5", "r6", "r7"])]
        envCredsOnly { enhance_call := none, extract_call := none } "p" "testing"
        []).requirements_applied ≤ 5 :=
  ⟨rfl, rfl, rfl, rfl, by decide⟩

/-- C2, amended: `enhance()` never raises toward the caller for missing
AI credentials.  When the access key id or the secret key is absent or
empty, `BedrockService()` construction fails and the response is the
fallback: `success = true`, `ai_enhanced = false`, `fallback_used = true`,
at most 5 requirements applied, appending exactly the first 5 stored
requirements for the task type, in stored order.  (Invalid-but-present
credentials instead take the primary path with `ai_enhanced = true`, as
the counterexample shows.) -/
theorem enhance_absent_credentials_fallback (nfr : List (String × List String))
    (bedrock : BedrockEnv) (ai : AiOutcomes) (prompt task_type : String)
    (selected_files : List SelEntry)
    (habsent : truthy bedrock.aws_access_key_id = false ∨
      truthy bedrock.aws_secret_access_key = false) :
    (enhance_route nfr bedrock ai prompt task_type selected_files).success = true ∧
    (enhance_route nfr bedrock ai prompt task_type selected_files).ai_enhanced = false ∧
    (enhance_route nfr bedrock ai prompt task_type selected_files).fallback_used =
      some true ∧
    (enhance_route nfr bedrock ai prompt task_type selected_files).requirements_applied ≤ 5 ∧
    ((lookupNfr nfr task_type).isEmpty = false →
      (enhance_route nfr bedrock ai prompt task_type selected_files).enhanced_prompt =
        (match task_guidance task_type with
         | some guidance_list =>
           prompt ++ "\n\nAdditional considerations:\n" ++
             String.intercalate "\n" (guidance_list.map (fun g => "- " ++ g))
         | none => prompt) ++
        nfrBlock task_type ((lookupNfr nfr task_type).take 5)) := by
  have h : bedrockInitOk bedrock = false := by
    unfold bedrockInitOk initialize_client
    rcases habsent with hk | hk <;> simp [load_user_config, hk, Except.toBool]
  have hinit : ∃ e, initialize_client bedrock = Except.error e := by
    cases hi : initialize_client bedrock with
    | ok st => rw [bedrockInitOk, hi] at h; exact absurd h (by simp [Except.toBool])
    | error e => exact ⟨e, rfl⟩
  obtain ⟨e, he⟩ := hinit
  have hroute : enhance_route nfr bedrock ai prompt task_type selected_files =
      fallbackEnhanceResponse prompt task_type (lookupNfr nfr task_type) := by
    simp only [enhance_route, he]
  rw [hroute]
  refine ⟨rfl, rfl, rfl, ?_, ?_⟩
  · simp only [fallbackEnhanceResponse]
    split
    · exact Nat.min_le_right _ _
    · exact Nat.zero_le 5
  · intro hne
    simp only [fallbackEnhanceResponse, fallbackEnhancedPrompt, hne]
    simp

/-- C2, witness: with seven stored requirements for `testing` and no
credentials in the environment, the fallback response applies exactly 5
requirements. -/
theorem enhance_absent_credentials_fallback_witness :
    truthy envNoKeys.aws_access_key_id = false ∧
    ((enhance_route [("testing", ["r1", "r2", "r3", "r4", "r5", "r6", "r7"])]
        envNoKeys { enhance_call := none, extract_call := none } "p" "testing"
        []).success = true ∧
      (enhance_route [("testing", ["r1", "r2", "r3", "r4", "r5", "r6", "r7"])]
        envNoKeys { enhance_call := none, extract_call := none } "p" "testing"
        []).ai_enhanced = false ∧
      (enhance_route [("testing", ["r1", "r2", "r3", "r4", "r5", "r6", "r7"])]
        envNoKeys { enhance_call := none, extract_call := none } "p" "testing"
        []).fallback_used = some true ∧
      (enhance_route [("testing", ["r1", "r2", "r3", "r4", "r5", "r6", "r7"])]
        envNoKeys { enhance_call := none, extract_call := none } "p" "testing"
        []).requirements_applied ≤ 5 ∧
      ((lookupNfr [("testing", ["r1", "r2", "r3", "r4", "r5", "r6", "r7"])]
          "testing").isEmpty = false →
        (enhance_route [("testing", ["r1", "r2", "r3", "r4", "r5", "r6", "r7"])]
          envNoKeys { enhance_call := none, extract_call := none } "p" "testing"
          []).enhanced_prompt =
          (match task_guidance "testing" with
           | some guidance_list =>
             "p" ++ "\n\nAdditional considerations:\n" ++
               String.intercalate "\n" (guidance_list.map (fun g => "- " ++ g))
           | none => "p") ++
          nfrBlock "testing"
            ((lookupNfr [("testing", ["r1", "r2", "r3", "r4", "r5", "r6", "r7"])]
              "testing").take 5))) :=
  ⟨rfl, enhance_absent_credentials_fallback
    [("testing", ["r1", "r2", "r3", "r4", "r5", "r6", "r7"])] envNoKeys
    { enhance_call := none, extract_call := none } "p" "testing" []
    (Or.inl rfl)⟩

/-- C3: the concrete scenario — `task_type = "testing"`,
`prompt = "add tests"`, no selected files, one stored requirement —
yields exactly the persona sentence, the task line and the requirements
block, joined by blank lines. -/
theorem build_testing_scenario :
    (build_prompt [("testing", ["must have 80% coverage"])] fsEmpty none
      { prompt := "add tests", task_type := "testing", selected_files := [],
        include_context := true, include_requirements := true }).final_prompt =
    "You are a testing specialist. Focus on comprehensive test coverage and quality assurance.\n\nTask: add tests\n\nNon-functional requirements for testing:\n- must have 80% coverage" :=
  rfl

/-- C4: with `include_context = true`, `files_processed` equals the length
of the input `selected_files` list, and an entry naming a file whose size
exceeds the cap is not inlined (its loop iteration contributes nothing). -/
theorem build_counts_oversized_files (nfr : List (String × List String))
    (fs : FileSys) (envKb : Option Nat) (req : BuildRequest)
    (path : String) (f : FsFile)
    (hctx : req.include_context = true)
    (hf : fs path = some f) (hsize : max_file_size envKb < f.size) :
    (build_prompt nfr fs envKb req).files_processed = req.selected_files.length ∧
    processEntry fs (max_file_size envKb) (SelEntry.dict (some path)) = none := by
  constructor
  · simp [build_prompt, hctx]
  · have hnle : ¬ f.size ≤ max_file_size envKb := Nat.not_le.mpr hsize
    simp [processEntry, hf, hnle]

/-- C4, witness: one selected file of 200000 bytes against the default
100 KiB cap is not inlined but is counted. -/
theorem build_counts_oversized_files_witness :
    fsBig "big.txt" = some { size := 200000, content := some "x" } ∧
    max_file_size none < 200000 ∧
    (build_prompt [] fsBig none
      { prompt := "p", task_type := "development",
        selected_files := [SelEntry.dict (some "big.txt")],
        include_context := true, include_requirements := true }).files_processed = 1 ∧
    processEntry fsBig (max_file_size none) (SelEntry.dict (some "big.txt")) = none := by
  have h := build_counts_oversized_files [] fsBig none
    { prompt := "p", task_type := "development",
      selected_files := [SelEntry.dict (some "big.txt")],
      include_context := true, include_requirements := true }
    "big.txt" { size := 200000, content := some "x" } rfl rfl (by decide)
  exact ⟨rfl, by decide, h.1, h.2⟩

/-- C5: for a task type outside the five recognized ones, build succeeds,
contributes no persona section, and the first section of the final prompt
is `Task: <prompt>` with the user's text verbatim. -/
theorem build_unrecognized_task_type (nfr : List (String × List String))
    (fs : FileSys) (envKb : Option Nat) (req : BuildRequest)
    (h : req.task_type ∉
      (["development", "refactoring", "testing", "documentation", "review"] :
        List String)) :
    (build_prompt nfr fs envKb req).success = true ∧
    personaSection req.task_type = [] ∧
    promptParts nfr fs envKb req =
      ("Task: " ++ req.prompt) ::
        (requirementsSection req.task_type (requirementsListOf nfr req) ++
          contextSection (contextTextOf fs envKb req)) := by
  simp only [List.mem_cons, List.mem_singleton, not_or] at h
  obtain ⟨h1, h2, h3, h4, h5, -⟩ := h
  have hp : personaSection req.task_type = [] := by
    simp [personaSection, task_contexts, h1, h2, h3, h4, h5]
  exact ⟨rfl, hp, by simp [promptParts, hp]⟩

/-- C5, witness: the unrecognized task type `debugging`. -/
theorem build_unrecognized_task_type_witness :
    (("debugging" : String) ∉
      (["development", "refactoring", "testing", "documentation", "review"] :
        List String)) ∧
    ((build_prompt [] fsEmpty none reqDebugging).success = true ∧
      personaSection reqDebugging.task_type = [] ∧
      promptParts [] fsEmpty none reqDebugging =
        ("Task: " ++ reqDebugging.prompt) ::
          (requirementsSection reqDebugging.task_type
              (requirementsListOf [] reqDebugging) ++
            contextSection (contextTextOf fsEmpty none reqDebugging))) :=
  ⟨by decide, build_unrecognized_task_type [] fsEmpty none reqDebugging (by decide)⟩

/-- C7: POST /api/user/config followed by GET returns exactly the document
last written: the write replaces the whole stored document. -/
theorem user_config_roundtrip (env : UserConfigEnv) (data : JVal)
    (stored : Option JVal) :
    (get_user_config env (update_user_config data stored).1).success = true ∧
    (get_user_config env (update_user_config data stored).1).config = data :=
  ⟨rfl, rfl⟩

/-- C8, counterexample: the hardcoded default document has no
`non_functional_requirements` key, and its `aws` record has no `model_id`
field — only `access_key_id`, `secret_access_key` and `region`. -/
theorem default_user_config_missing_fields_counterexample :
    (get_user_config { aws_default_region := none, default_task_type := none }
        none).config.get "non_functional_requirements" = none ∧
    ((get_user_config { aws_default_region := none, default_task_type := none }
        none).config.get "aws").map JVal.keys =
      some ["access_key_id", "secret_access_key", "region"] :=
  ⟨rfl, rfl⟩

/-- C8, amended: when no config file exists, GET /api/user/config returns
the hardcoded default record with exactly the fields
`aws{access_key_id, secret_access_key, region}`,
`github{token, default_repo}` and `preferences{default_task_type,
include_context_by_default, include_requirements_by_default}` — with no
`aws.model_id` and no `non_functional_requirements` mapping. -/
theorem default_user_config_shape (env : UserConfigEnv) :
    (get_user_config env none).success = true ∧
    (get_user_config env none).config = default_user_config env ∧
    (default_user_config env).keys = ["aws", "github", "preferences"] ∧
    ((default_user_config env).get "aws").map JVal.keys =
      some ["access_key_id", "secret_access_key", "region"] ∧
    ((default_user_config env).get "github").map JVal.keys =
      some ["token", "default_repo"] ∧
    ((default_user_config env).get "preferences").map JVal.keys =
      some ["default_task_type", "include_context_by_default",
        "include_requirements_by_default"] :=
  ⟨rfl, rfl, rfl, rfl, rfl, rfl⟩

/-- C9, counterexample: with both keys set but no region in the
environment, `BedrockService` construction succeeds — the region silently
defaults to `us-east-1` instead of failing fast. -/
theorem bedrock_init_without_region_counterexample :
    envCredsOnly.aws_default_region = none ∧
    initialize_client envCredsOnly =
      Except.ok { region := "us-east-1", model_id := default_model_id } :=
  ⟨rfl, rfl⟩

/-- C9, amended: construction fails fast exactly when the access key id or
the secret key is absent or empty (or the external client constructor
raises); the region is never required and defaults to `us-east-1`, and all
values are sourced from environment variables (`_load_user_config` reads
the environment only — no local config file is consulted). -/
theorem bedrock_init_requires_keys_only (env : BedrockEnv) :
    (initialize_client env).toBool =
      (truthy env.aws_access_key_id && truthy env.aws_secret_access_key &&
        env.clientOk) ∧
    (load_user_config env).region = env.aws_default_region.getD "us-east-1" := by
  constructor
  · unfold initialize_client
    cases ha : truthy env.aws_access_key_id <;>
      cases hs : truthy env.aws_secret_access_key <;>
        cases hc : env.clientOk <;>
          simp [load_user_config, ha, hs, hc, Except.toBool]
  · rfl

/-- C10: `build_prompt` is total over arbitrary `selected_files` entries:
any entry that is not a record naming an existing, readable file within
the size cap is absorbed (its iteration contributes nothing), the
operation still succeeds, and the entry still counts toward
`files_processed` when `include_context` is true. -/
theorem build_absorbs_bad_entries (nfr : List (String × List String))
    (fs : FileSys) (envKb : Option Nat) (req : BuildRequest) (e : SelEntry)
    (hmem : e ∈ req.selected_files)
    (hbad : goodSelection fs (max_file_size envKb) e = false)
    (hctx : req.include_context = true) :
    (build_prompt nfr fs envKb req).success = true ∧
    processEntry fs (max_file_size envKb) e = none ∧
    (build_prompt nfr fs envKb req).files_processed =
      req.selected_files.length := by
  refine ⟨rfl, ?_, by simp [build_prompt, hctx]⟩
  cases e with
  | other => rfl
  | dict p =>
    have hbad2 : (match fs (p.getD "") with
        | some f => decide (f.size ≤ max_file_size envKb) && f.content.isSome
        | none => false) = false := hbad
    have hred : processEntry fs (max_file_size envKb) (SelEntry.dict p) =
        (match fs (p.getD "") with
         | none => none
         | some f =>
           if f.size ≤ max_file_size envKb then
             match f.content with
             | some content =>
               some ("File: " ++ p.getD "" ++ "\n" ++ content ++ "\n")
             | none => none
           else none) := rfl
    rw [hred]
    cases hf : fs (p.getD "") with
    | none => rfl
    | some f =>
      rw [hf] at hbad2
      have hbad3 : (decide (f.size ≤ max_file_size envKb) && f.content.isSome) =
          false := hbad2
      show (if f.size ≤ max_file_size envKb then
              match f.content with
              | some content =>
                some ("File: " ++ p.getD "" ++ "\n" ++ content ++ "\n")
              | none => none
            else none) = none
      by_cases hle : f.size ≤ max_file_size envKb
      · cases hc : f.content with
        | none => rw [if_pos hle]
        | some c =>
          rw [hc] at hbad3
          simp [hle] at hbad3
      · rw [if_neg hle]

/-- C10, witness: a non-record entry among the selected files is skipped
while the build succeeds and counts it. -/
theorem build_absorbs_bad_entries_witness :
    (SelEntry.other ∈ [SelEntry.other]) ∧
    goodSelection fsEmpty (max_file_size none) SelEntry.other = false ∧
    ((build_prompt [] fsEmpty none
        { prompt := "p", task_type := "development",
          selected_files := [SelEntry.other],
          include_context := true, include_requirements := true }).success = true ∧
      processEntry fsEmpty (max_file_size none) SelEntry.other = none ∧
      (build_prompt [] fsEmpty none
        { prompt := "p", task_type := "development",
          selected_files := [SelEntry.other],
          include_context := true, include_requirements := true }).files_processed = 1) :=
  ⟨List.mem_singleton.mpr rfl, rfl,
    build_absorbs_bad_entries [] fsEmpty none
      { prompt := "p", task_type := "development",
        selected_files := [SelEntry.other],
        include_context := true, include_requirements := true }
      SelEntry.other (List.mem_singleton.mpr rfl) rfl rfl⟩

end VibeAssistant
